import Mathlib

/-!
Verification of the pulsar monitor/worker core against its specification.

The development shallowly embeds the two source files that carry the core
behaviour:

* `pulsar/apps/test/__init__.py` — the `TestSuite` application: the monitor
  hooks `on_config`, `monitor_start`, `monitor_task`, and the `Remotes`
  result-reporting endpoint.
* `pulsar/workers/sync.py` — the synchronous worker `WsgiSyncMixin`: the
  accept loop `_run`, the per-connection `handle`, and `handle_request`.

Python integers become `Nat`, exception flow becomes explicit outcome data,
and per-iteration side effects are recorded as event lists so that ordering
properties can be stated.  Components of the repository that the claims need
but whose code is not under `src/` (the `TestRunner` result aggregator, the
process-shared io queue, the `TestLoader`) are modelled from the spec and
marked as such in their doc comments.
-/

namespace Pulsar

/-! ### Errno constants (Linux values, as used by `pulsar/workers/sync.py`) -/

def EAGAIN : Nat := 11

def EWOULDBLOCK : Nat := 11

def ECONNABORTED : Nat := 103

def EINTR : Nat := 4

def ECONNRESET : Nat := 104

def EPIPE : Nat := 32

/-- `WsgiSyncMixin.ALLOWED_ERRORS = (errno.EAGAIN, errno.ECONNABORTED,
errno.EWOULDBLOCK)` (sync.py line 21). -/
def ALLOWED_ERRORS : List Nat := [EAGAIN, ECONNABORTED, EWOULDBLOCK]

/-! ### Monitor tick — `TestSuite.monitor_task` (test/__init__.py 237–244)

The tick compares `runner.count` with `len(self.local['tests'])`; on
equality it computes the elapsed time, calls `runner.on_end()`, prints the
summary and stops the arbiter (global shutdown).  Otherwise it does
nothing. -/

structure TickResult where
  complete : Bool
  elapsedComputed : Bool
  summaryEmitted : Bool
  shutdownIssued : Bool
  deriving DecidableEq, Repr

/-- One execution of `TestSuite.monitor_task`, as a function of the
aggregated result count and the number of seeded test tasks. -/
def monitor_task (count expected : Nat) : TickResult :=
  if count = expected then
    { complete := true, elapsedComputed := true,
      summaryEmitted := true, shutdownIssued := true }
  else
    { complete := false, elapsedComputed := false,
      summaryEmitted := false, shutdownIssued := false }

/-! ### Run start — `TestSuite.monitor_start` (test/__init__.py 221–235)

With a non-empty test list the monitor sets the worker pool size to
`min(self.cfg.workers, len(tests))` and puts every test request on the
queue.  With an empty list it prints `'Could not find any tests.'` and
stops the arbiter before any worker is spawned, so the spawned pool size
is zero. -/

structure StartResult where
  /-- Number of workers the run will spawn.  In the empty branch the code
  never sets the `workers` option and stops the arbiter at once, so no
  worker is spawned. -/
  workersSpawned : Nat
  queued : List Nat
  noWorkReported : Bool
  shutdownIssued : Bool
  deriving DecidableEq, Repr

/-- `TestSuite.monitor_start` as a function of the configured `workers`
option and the list of loaded test tasks (identified by tag). -/
def monitor_start (cfgWorkers : Nat) (tests : List Nat) : StartResult :=
  if tests.isEmpty then
    { workersSpawned := 0, queued := [],
      noWorkReported := true, shutdownIssued := true }
  else
    { workersSpawned := min cfgWorkers tests.length, queued := tests,
      noWorkReported := false, shutdownIssued := false }

/-! ### Result aggregation — `Remotes.actor_test_result` (test/__init__.py
113–116) forwards each reported result to `self.app.runner.add(result)`. -/

/-- Modelled from the spec: `TestRunner.add` and `TestRunner.count` live in
`pulsar/apps/test/result.py`, which is not under `src/`; only their caller
`Remotes.actor_test_result` is.  Per the spec, `add(result)` stores the
result keyed by task identifier and is idempotent, and `count` exposes the
number of distinct recorded results. -/
structure Aggregator where
  results : List (Nat × Nat)
  deriving DecidableEq, Repr

/-- Modelled from the spec: record a result under task identifier `tid`
unless one with that identifier is already recorded. -/
def Aggregator.add (a : Aggregator) (tid payload : Nat) : Aggregator :=
  if (a.results.map Prod.fst).contains tid then a
  else ⟨(tid, payload) :: a.results⟩

/-- Modelled from the spec: the number of distinct recorded results. -/
def Aggregator.count (a : Aggregator) : Nat := a.results.length

/-! ### Task queue — seeded by `monitor.put(TestRequest(testcls, tag))`
(test/__init__.py 231–232) and drained by the workers. -/

/-- Modelled from the spec: the process-shared io queue (`monitor.put` and
the workers' dequeue live in pulsar core, not under `src/`).  Per the spec
it is FIFO and `dequeue()` removes and returns the head atomically; on an
empty queue the caller gets an `EmptyQueue` condition and polls again. -/
structure QueueState where
  queue : List Nat
  /-- `(worker, item)` pairs in global dequeue order. -/
  received : List (Nat × Nat)
  deriving DecidableEq, Repr

/-- Modelled from the spec: one atomic dequeue attempt by worker `w`; an
empty queue is a no-op for the caller (it polls again). -/
def dequeueStep (s : QueueState) (w : Nat) : QueueState :=
  match s.queue with
  | [] => s
  | x :: rest => ⟨rest, s.received ++ [(w, x)]⟩

/-- A run under an arbitrary interleaving: `schedule` lists, in global
order, which worker performs each dequeue attempt. -/
def runSchedule (s : QueueState) : List Nat → QueueState
  | [] => s
  | w :: ws => runSchedule (dequeueStep s w) ws

/-- Helper: a schedule of `n` attempts takes the first `n` items, in FIFO
order, and leaves the rest queued. -/
theorem runSchedule_spec (ws : List Nat) (items : List Nat)
    (recd : List (Nat × Nat)) :
    (runSchedule ⟨items, recd⟩ ws).received.map Prod.snd
        = recd.map Prod.snd ++ items.take ws.length ∧
      (runSchedule ⟨items, recd⟩ ws).queue = items.drop ws.length := by
  induction ws generalizing items recd with
  | nil => simp [runSchedule]
  | cons w ws ih =>
    cases items with
    | nil =>
      have h := ih [] recd
      simpa [runSchedule, dequeueStep] using h
    | cons x rest =>
      have h := ih rest (recd ++ [(w, x)])
      simpa [runSchedule, dequeueStep, List.append_assoc] using h

/-- C1: The Monitor's periodic tick (monitor_task) issues global shutdown,
computes elapsed time and emits the final summary if and only if the number
of aggregated results equals the number of seeded test tasks: for every run
with K seeded tasks, the tick reports complete exactly when the
aggregator's count equals K — hence it stays incomplete for every count
below K and never reports complete for a count above K. -/
theorem monitor_task_complete_iff (count K : Nat) :
    ((monitor_task count K).complete = true ↔ count = K) ∧
      (monitor_task count K).elapsedComputed = (monitor_task count K).complete ∧
      (monitor_task count K).summaryEmitted = (monitor_task count K).complete ∧
      (monitor_task count K).shutdownIssued = (monitor_task count K).complete := by
  unfold monitor_task
  by_cases h : count = K <;> simp [h]

/-- C2: At run start (monitor_start), for configured_max_workers = W and
seeded_tasks = T, the resulting worker pool size is min(W, T); for T = 0
the pool size is 0, no workers are spawned, the run reports that no work
was found, and shutdown is issued immediately.  Stated equationally: the
spawned pool size always equals `min W T`, the whole test list is queued
exactly when it is non-empty, and the no-work report and immediate
shutdown happen exactly when the test list is empty. -/
theorem monitor_start_pool_size (W : Nat) (tests : List Nat) :
    (monitor_start W tests).workersSpawned = min W tests.length ∧
      (monitor_start W tests).queued = (if tests.isEmpty then [] else tests) ∧
      (monitor_start W tests).noWorkReported = tests.isEmpty ∧
      (monitor_start W tests).shutdownIssued = tests.isEmpty := by
  unfold monitor_start
  cases tests <;> simp

/-- C7: Result aggregation is idempotent per task identifier: calling
`add` a second time with a result carrying an already-recorded task
identifier is a no-op, leaving the aggregator's count unchanged after the
first call. -/
theorem aggregator_add_idempotent (a : Aggregator) (tid p q : Nat) :
    ((a.add tid p).add tid q).count = (a.add tid p).count := by
  have hnoop : ∀ (b : Aggregator) (t r : Nat),
      (b.results.map Prod.fst).contains t = true → b.add t r = b := by
    intro b t r h
    unfold Aggregator.add
    rw [if_pos h]
  have hmem : ((a.add tid p).results.map Prod.fst).contains tid = true := by
    unfold Aggregator.add
    by_cases h : (a.results.map Prod.fst).contains tid = true
    · rw [if_pos h]; exact h
    · rw [if_neg h]; simp
  rw [hnoop _ _ _ hmem]

/-- C8: Task-queue delivery is at-most-once: for every run in which the
items of `items` are enqueued and an arbitrary interleaving `schedule` of
worker dequeue attempts drains the queue, the sequence of dequeued items is
exactly a prefix of the enqueued list and the remainder is still queued —
so each enqueued item is received by exactly one worker, no two workers
ever receive the same item, and once the schedule has at least as many
attempts as there are items, the dequeued items are exactly the enqueued
ones, once each. -/
theorem queue_at_most_once (items schedule : List Nat) :
    (runSchedule ⟨items, []⟩ schedule).received.map Prod.snd
        = items.take schedule.length ∧
      (runSchedule ⟨items, []⟩ schedule).queue = items.drop schedule.length ∧
      (runSchedule ⟨items, []⟩ schedule).received.map Prod.snd
          ++ (runSchedule ⟨items, []⟩ schedule).queue = items := by
  have h := runSchedule_spec schedule items []
  have h1 : (runSchedule ⟨items, []⟩ schedule).received.map Prod.snd
      = items.take schedule.length := by simpa using h.1
  refine ⟨h1, h.2, ?_⟩
  rw [h1, h.2, List.take_append_drop]

/-! ### Worker state — `WsgiSyncMixin` / `pulsar.WorkerProcess`
(sync.py).  The fields the claims touch: the served-request counter
`self.nr`, the restart threshold `self.max_requests`, the loop flag
`self.alive`, and the parent id recorded at spawn `self.ppid`. -/

structure SyncWorker where
  nr : Nat
  max_requests : Nat
  alive : Bool
  ppid : Nat
  deriving DecidableEq, Repr

/-- The observable sub-steps of `handle_request` (sync.py 100–131), in
execution order, so that ordering claims can be stated:  `incrNr` is the
`self.nr += 1` at line 109, `setAliveFalse` the `self.alive = False` at
line 112, and `execBody ok` the execution of the response body (the
`self.handler(...)` call and the write loop, lines 113–118), with `ok`
recording whether it ran without raising. -/
inductive HandleEvent where
  | incrNr
  | setAliveFalse
  | execBody (ok : Bool)
  deriving DecidableEq, Repr

/-- `WsgiSyncMixin.handle_request` (sync.py 100–131) as a state
transition plus its event trace.  `setupOk` is whether the prelude before
the counter update (`cfg.pre_request`, `http.create_wsgi`, lines 103–104)
succeeds; when it raises, the exception propagates before `self.nr` is
touched.  Otherwise the code increments `nr`, sets `alive` to `False` when
the incremented counter has reached `max_requests` (lines 109–112), and
only then executes the response body; `execOk` is whether that body runs
without raising.  A body exception does not undo the counter or flag
updates. -/
def handle_request (s : SyncWorker) (setupOk execOk : Bool) :
    SyncWorker × List HandleEvent :=
  if setupOk then
    ({ s with nr := s.nr + 1,
              alive := if s.max_requests ≤ s.nr + 1 then false else s.alive },
      [HandleEvent.incrNr]
        ++ (if s.max_requests ≤ s.nr + 1 then [HandleEvent.setAliveFalse] else [])
        ++ [HandleEvent.execBody execOk])
  else (s, [])

/-- The exception (if any) that reaches `handle`'s `try` block from
`parser.next()` or `handle_request` (sync.py 77–98): normal completion,
`StopIteration` (premature client disconnect), a `socket.error` with the
given errno, or any other `Exception`; for the latter, `write500Ok`
records whether the last-ditch `write_nonblock` of the 500 response
itself succeeds. -/
inductive HandleOutcome where
  | ok
  | stopIteration
  | sockErr (e : Nat)
  | otherExc (write500Ok : Bool)

/-- What one call of `WsgiSyncMixin.handle` (sync.py 77–98) does with an
item: whether an exception escapes the call, what is logged, whether the
best-effort 500 error response is attempted, and whether the client
socket is closed. -/
structure HandleResult where
  propagated : Bool
  loggedDebug : Bool
  loggedError : Bool
  errorResponseAttempted : Bool
  closed : Bool
  deriving DecidableEq, Repr

/-- `WsgiSyncMixin.handle` (sync.py 77–98): `StopIteration` is logged at
debug; a `socket.error` is logged at debug for `EPIPE` and as an error
otherwise; any other `Exception` is logged and a best-effort
`HTTP 500` is written to the client inside a bare `try/except: pass`, so
a failure of that write is swallowed; the `finally` closes the client on
every path.  No branch re-raises. -/
def handle : HandleOutcome → HandleResult
  | HandleOutcome.ok =>
      { propagated := false, loggedDebug := false, loggedError := false,
        errorResponseAttempted := false, closed := true }
  | HandleOutcome.stopIteration =>
      { propagated := false, loggedDebug := true, loggedError := false,
        errorResponseAttempted := false, closed := true }
  | HandleOutcome.sockErr e =>
      if e = EPIPE then
        { propagated := false, loggedDebug := true, loggedError := false,
          errorResponseAttempted := false, closed := true }
      else
        { propagated := false, loggedDebug := false, loggedError := true,
          errorResponseAttempted := false, closed := true }
  | HandleOutcome.otherExc _ =>
      { propagated := false, loggedDebug := false, loggedError := true,
        errorResponseAttempted := true, closed := true }

/-- True exactly for the non-socket, non-`StopIteration` exception case,
in which `handle` attempts the 500 error response. -/
def isOtherExc : HandleOutcome → Bool
  | HandleOutcome.otherExc _ => true
  | _ => false

/-! ### The accept loop — `WsgiSyncMixin._run` (sync.py 26–75)

Each iteration of `while self.alive` either accepts a connection and
handles it (then `continue`s, skipping the rest of the iteration), or
catches a `socket.error`: an errno outside `ALLOWED_ERRORS` is re-raised
(fatal), an allowed one falls through to the idle branch, which first
compares `self.ppid` with the current parent id — returning cleanly on a
mismatch — and then notifies and polls.  The `if 0:` block at lines 61–75
is statically dead and is not modelled. -/

/-- The outcome of one `socket.accept()` attempt, together with the parent
id the idle branch would observe on that iteration: either a connection
(handled by `handle`, which never raises — see `handle`), or a
`socket.error` with errno `e`. -/
inductive IterIn where
  | conn (setupOk execOk : Bool)
  | err (e : Nat) (observedParent : Nat)
  deriving DecidableEq, Repr

/-- Observable per-iteration events of `_run`: an item handled to
completion, the parent-identity comparison (with its result), and the
notify-and-poll of the idle branch. -/
inductive LoopEvent where
  | handled (setupOk execOk : Bool)
  | parentCheck (mismatch : Bool)
  | polled
  deriving DecidableEq, Repr

/-- How a (finite observation of a) run of the loop ends. -/
inductive LoopExit where
  /-- The observation script was exhausted with the loop still running. -/
  | scriptEnd
  /-- `while self.alive` found the flag false. -/
  | notAlive
  /-- Clean `return` from the parent-identity mismatch branch. -/
  | parentChanged
  /-- A `socket.error` outside `ALLOWED_ERRORS` was re-raised. -/
  | fatalErr (e : Nat)
  deriving DecidableEq, Repr

/-- `WsgiSyncMixin._run` (sync.py 26–75) over a finite script of accept
outcomes: returns the final worker state, the event trace, and how the
observed run ended. -/
def runLoop (s : SyncWorker) : List IterIn → SyncWorker × List LoopEvent × LoopExit
  | [] => (s, [], LoopExit.scriptEnd)
  | it :: rest =>
    if s.alive then
      match it with
      | IterIn.conn setupOk execOk =>
        let s' := (handle_request s setupOk execOk).1
        let r := runLoop s' rest
        (r.1, LoopEvent.handled setupOk execOk :: r.2.1, r.2.2)
      | IterIn.err e obs =>
        if e ∈ ALLOWED_ERRORS then
          if s.ppid ≠ obs then
            (s, [LoopEvent.parentCheck true], LoopExit.parentChanged)
          else
            let r := runLoop s rest
            (r.1, LoopEvent.parentCheck false :: LoopEvent.polled :: r.2.1, r.2.2)
        else (s, [], LoopExit.fatalErr e)
    else (s, [], LoopExit.notAlive)

/-- The ordering property C3 asserts of a handled item's trace: the alive
flag is only ever cleared after the body has executed — no `execBody`
event follows a `setAliveFalse` event. -/
def aliveSetOnlyAfterExec : List HandleEvent → Bool
  | [] => true
  | HandleEvent.setAliveFalse :: rest =>
      (rest.all fun ev =>
        match ev with
        | HandleEvent.execBody _ => false
        | _ => true) && aliveSetOnlyAfterExec rest
  | _ :: rest => aliveSetOnlyAfterExec rest

/-- C3 fails on the code: for a worker at `nr = 9` with
`max_requests = 10` handling its tenth item, the trace of
`handle_request` is `incrNr`, then `setAliveFalse`, then `execBody` — the
alive flag is cleared *before* the item's body executes, not after its
completion; and a worker at `nr = 0` whose item's body *fails* still ends
with `nr = 1` — the counter is incremented before, and regardless of,
successful execution. -/
theorem worker_restart_order_cex :
    aliveSetOnlyAfterExec (handle_request ⟨9, 10, true, 1⟩ true true).2 = false ∧
      (handle_request ⟨9, 10, true, 1⟩ true true).2
        = [HandleEvent.incrNr, HandleEvent.setAliveFalse,
           HandleEvent.execBody true] ∧
      (handle_request ⟨0, 10, true, 1⟩ true false).1.nr = 1 := by
  decide

/-- C3 amended: for every item whose prelude succeeds, the served-count is
incremented at the start of handling — before the body executes and
regardless of the body's success — and a worker whose incremented count
reaches `max_requests` clears `alive` during the handling of that item,
before executing its body; the item nonetheless runs to completion
(`execBody` is the last event of its trace) and the loop, which tests
`alive` only between items, exits before fetching any further item. -/
theorem worker_restart_amended (s : SyncWorker) (execOk : Bool)
    (it : IterIn) (rest : List IterIn)
    (halive : s.alive = true) (hmax : s.nr + 1 = s.max_requests) :
    (handle_request s true execOk).1.nr = s.nr + 1 ∧
      (handle_request s true execOk).1.alive = false ∧
      (handle_request s true execOk).2
        = [HandleEvent.incrNr, HandleEvent.setAliveFalse,
           HandleEvent.execBody execOk] ∧
      runLoop s (IterIn.conn true execOk :: it :: rest)
        = ((handle_request s true execOk).1,
           [LoopEvent.handled true execOk], LoopExit.notAlive) := by
  have hle : s.max_requests ≤ s.nr + 1 := Nat.le_of_eq hmax.symm
  have h1 : handle_request s true execOk
      = ({ s with nr := s.nr + 1, alive := false },
         [HandleEvent.incrNr, HandleEvent.setAliveFalse,
          HandleEvent.execBody execOk]) := by
    unfold handle_request
    simp [hle]
  refine ⟨by rw [h1], by rw [h1], by rw [h1], ?_⟩
  simp [runLoop, halive, h1]

/-- Witness for `worker_restart_amended` at `nr = 9`, `max_requests = 10`,
a successful tenth item, and one further pending accept outcome. -/
theorem worker_restart_amended_witness :
    (⟨9, 10, true, 1⟩ : SyncWorker).alive = true ∧ 9 + 1 = 10 ∧
      runLoop ⟨9, 10, true, 1⟩ [IterIn.conn true true, IterIn.err EAGAIN 1]
        = ((handle_request ⟨9, 10, true, 1⟩ true true).1,
           [LoopEvent.handled true true], LoopExit.notAlive) :=
  ⟨rfl, rfl,
    (worker_restart_amended ⟨9, 10, true, 1⟩ true (IterIn.err EAGAIN 1) []
      rfl rfl).2.2.2⟩

/-- C4: every exception reaching `handle`'s item boundary is caught there
and never propagates out of the accept loop; the best-effort 500 error
response is attempted exactly in the non-socket-exception case, and — as
the universal quantification over `HandleOutcome.otherExc false` shows — a
failure to send that response is itself swallowed rather than re-raised. -/
theorem handle_isolates_failures (o : HandleOutcome) :
    (handle o).propagated = false ∧
      (handle o).errorResponseAttempted = isOtherExc o := by
  cases o with
  | ok => exact ⟨rfl, rfl⟩
  | stopIteration => exact ⟨rfl, rfl⟩
  | sockErr e =>
    by_cases h : e = EPIPE <;> simp [handle, isOtherExc, h]
  | otherExc w => exact ⟨rfl, rfl⟩

/-- C5 fails on the code: an `EINTR` acquisition error is *not* in
`ALLOWED_ERRORS`, so a live worker with an unchanged parent that gets an
`EINTR` from `accept` re-raises it and dies instead of continuing to the
idle branch — `EINTR`-equivalent conditions are not in the code's
transient set. -/
theorem accept_eintr_fatal_cex :
    runLoop ⟨0, 10, true, 1⟩ [IterIn.err EINTR 1]
        = (⟨0, 10, true, 1⟩, [], LoopExit.fatalErr EINTR) ∧
      EINTR ∉ ALLOWED_ERRORS := by
  decide

/-- C5 amended: the transient set of the accept loop is exactly
`ALLOWED_ERRORS = [EAGAIN, ECONNABORTED, EWOULDBLOCK]` — would-block and
connection-aborted conditions.  An acquisition error in that set is caught
at the loop boundary and the loop continues to the idle branch
(parent check, notify, poll); *every* other errno — including `EINTR` and
peer-reset `ECONNRESET` — propagates out of the loop and is fatal to the
worker. -/
theorem accept_transient_exact (s : SyncWorker) (e obs : Nat)
    (rest : List IterIn)
    (halive : s.alive = true) (hpar : s.ppid = obs) :
    runLoop s (IterIn.err e obs :: rest)
      = if e ∈ ALLOWED_ERRORS then
          ((runLoop s rest).1,
            LoopEvent.parentCheck false :: LoopEvent.polled
              :: (runLoop s rest).2.1,
            (runLoop s rest).2.2)
        else (s, [], LoopExit.fatalErr e) := by
  by_cases hm : e ∈ ALLOWED_ERRORS <;> simp [runLoop, halive, hpar, hm]

/-- Witness for `accept_transient_exact` at a live worker with matching
parent id and an `EINTR` acquisition error. -/
theorem accept_transient_exact_witness :
    (⟨0, 10, true, 1⟩ : SyncWorker).alive = true ∧
      (⟨0, 10, true, 1⟩ : SyncWorker).ppid = 1 ∧
      runLoop ⟨0, 10, true, 1⟩ [IterIn.err EINTR 1]
        = if EINTR ∈ ALLOWED_ERRORS then
            ((runLoop ⟨0, 10, true, 1⟩ []).1,
              LoopEvent.parentCheck false :: LoopEvent.polled
                :: (runLoop ⟨0, 10, true, 1⟩ []).2.1,
              (runLoop ⟨0, 10, true, 1⟩ []).2.2)
          else (⟨0, 10, true, 1⟩, [], LoopExit.fatalErr EINTR) :=
  ⟨rfl, rfl, accept_transient_exact ⟨0, 10, true, 1⟩ EINTR 1 [] rfl rfl⟩

/-- C6: the parent-identity comparison happens only in the accept loop's
no-work branch — an iteration that acquired a work item contributes
exactly its `handled` event and no `parentCheck` — and whenever the
observed parent id differs from the one recorded at worker start, the
worker returns from the loop cleanly: no fatal error, no further item
executed, whatever accept outcomes were still pending. -/
theorem parent_check_idle_only (s : SyncWorker) (setupOk execOk : Bool)
    (e obs : Nat) (rest : List IterIn)
    (halive : s.alive = true) :
    (runLoop s (IterIn.conn setupOk execOk :: rest)).2.1
        = LoopEvent.handled setupOk execOk
            :: (runLoop (handle_request s setupOk execOk).1 rest).2.1 ∧
      (e ∈ ALLOWED_ERRORS → s.ppid ≠ obs →
        runLoop s (IterIn.err e obs :: rest)
          = (s, [LoopEvent.parentCheck true], LoopExit.parentChanged)) := by
  constructor
  · simp [runLoop, halive]
  · intro hm hne
    simp [runLoop, halive, hm, hne]

/-- Witness for `parent_check_idle_only`: a live worker whose recorded
parent id 1 differs from the observed parent id 2 returns cleanly from an
`EAGAIN` (no-work) iteration. -/
theorem parent_check_idle_only_witness :
    (⟨0, 10, true, 1⟩ : SyncWorker).alive = true ∧
      EAGAIN ∈ ALLOWED_ERRORS ∧
      (⟨0, 10, true, 1⟩ : SyncWorker).ppid ≠ 2 ∧
      runLoop ⟨0, 10, true, 1⟩ [IterIn.err EAGAIN 2]
        = (⟨0, 10, true, 1⟩, [LoopEvent.parentCheck true],
           LoopExit.parentChanged) :=
  ⟨rfl, by decide, by decide,
    (parent_check_idle_only ⟨0, 10, true, 1⟩ true true EAGAIN 2 [] rfl).2
      (by decide) (by decide)⟩

/-- C10: `handle` closes the client socket on every exit path — normal
completion, premature client disconnection, socket errors (`EPIPE` or
not), and arbitrary execution failures alike, even when the best-effort
error response itself fails. -/
theorem handle_always_closes (o : HandleOutcome) : (handle o).closed = true := by
  cases o with
  | ok => rfl
  | stopIteration => rfl
  | sockErr e =>
    by_cases h : e = EPIPE <;> simp [handle, h]
  | otherExc w => rfl

/-! ### Listing mode — `TestSuite.on_config` (test/__init__.py 180–219)

With `self.cfg.list_labels` set, `on_config` prints `sorted(_tags())`,
where `_tags()` yields each loaded module's tag annotated with the module
docstring when one is present, and then `return False` — before
`self.local['loader']` is installed, so nothing is ever seeded. -/

/-- A loaded test module as `TestLoader.testmodules` yields it: a tag and
an optional module docstring.  Modelled from the spec: `TestLoader` lives
in `pulsar/apps/test/loader.py`, which is not under `src/`; per the spec
the loader enumerates the available task labels with each label appearing
once.  Tags and docstrings are abstracted to numbers; the Python code
sorts the formatted label strings, the embedding keeps each label as its
`(tag, annotation)` pair and sorts by tag. -/
def tagLe (a b : Nat × Option Nat) : Prop := a.1 ≤ b.1

instance : DecidableRel tagLe := fun a b => Nat.decLe a.1 b.1

instance : IsTotal (Nat × Option Nat) tagLe := ⟨fun a b => Nat.le_total a.1 b.1⟩

instance : IsTrans (Nat × Option Nat) tagLe := ⟨fun _ _ _ => Nat.le_trans⟩

/-- The listing branch's output: the loaded labels, each with its optional
annotation, in sorted order (`for tag in sorted(_tags()): print(tag)`). -/
def listLabels (mods : List (Nat × Option Nat)) : List (Nat × Option Nat) :=
  List.insertionSort tagLe mods

/-- What `TestSuite.on_config` decides: what the listing branch printed
(if taken), and whether the application proceeds to seed tasks and run
the worker pool. -/
structure ConfigOutcome where
  printed : Option (List (Nat × Option Nat))
  /-- The listing branch ends in `return False` before
  `self.local['loader']` is installed, so no task can be seeded; modelled
  from the spec, `on_config` returning `False` stops the application from
  starting, so the worker pool never runs. -/
  proceedsToRun : Bool
  deriving DecidableEq, Repr

/-- `TestSuite.on_config` as a function of the `list_labels` flag and the
loaded modules. -/
def on_config (listLabelsFlag : Bool) (mods : List (Nat × Option Nat)) :
    ConfigOutcome :=
  if listLabelsFlag then
    { printed := some (listLabels mods), proceedsToRun := false }
  else { printed := none, proceedsToRun := true }

/-- C9: with the list-labels directive set, `on_config` prints every
available task label exactly once (a permutation of the loader's output,
so deduplicated given that the loader yields each label once), in sorted
order, each carrying its optional module-docstring annotation — and
performs no execution: it returns before any task is seeded and the
worker pool never runs. -/
theorem list_labels_sorted_no_run (mods : List (Nat × Option Nat))
    (flag : Bool) (hflag : flag = true) (hnd : mods.Nodup) :
    (on_config flag mods).printed = some (listLabels mods) ∧
      (on_config flag mods).proceedsToRun = false ∧
      List.Sorted tagLe (listLabels mods) ∧
      (listLabels mods).Nodup ∧
      List.Perm (listLabels mods) mods := by
  subst hflag
  refine ⟨rfl, rfl, List.sorted_insertionSort _ _, ?_,
    List.perm_insertionSort _ _⟩
  exact (List.perm_insertionSort _ mods).nodup_iff.mpr hnd

/-- Witness for `list_labels_sorted_no_run` on two loaded modules, the
second annotated with a docstring. -/
theorem list_labels_sorted_no_run_witness :
    ([((2 : Nat), (none : Option Nat)), (1, some 5)]).Nodup ∧
      (on_config true [((2 : Nat), (none : Option Nat)), (1, some 5)]).proceedsToRun
        = false ∧
      List.Sorted tagLe (listLabels [((2 : Nat), (none : Option Nat)), (1, some 5)]) ∧
      (listLabels [((2 : Nat), (none : Option Nat)), (1, some 5)]).Nodup := by
  have h := list_labels_sorted_no_run
    [((2 : Nat), (none : Option Nat)), (1, some 5)] true rfl (by decide)
  exact ⟨by decide, h.2.1, h.2.2.1, h.2.2.2.1⟩

end Pulsar
